import Mathlib

/-!
Verification of the fleet-delivery tracking and routing backend.

This development shallowly embeds the core request handlers of the backend:

* `utils/distance.py`  — Haversine distance, OSRM correction factors,
  ETA computation and the road-distance fallback policy;
* `routers/orders.py`  — the `update_order` delivery state machine with the
  OTP / receipt delivery gate and the single-active-delivery conflict guard,
  plus the two `DELETE /api/orders/{id}` handlers (`cancel_order` and
  `delete_order`);
* `routers/tracking.py` — the per-order route cache with its 100 m staleness
  policy, route selection and recalculation, the geofence validator and the
  driver WebSocket ingestion loop;
* `routers/location.py` — the HTTP location-update handler and the fan-out
  `ConnectionManager`;
* `services/notification_broadcast.py` — `broadcast_to_role`.

Pure numeric code is embedded over an ordered field (instantiated at `ℚ` for
executable checks and at `ℝ` where the trigonometric Haversine formula is
involved).  Database access is modelled by explicit lists of records, the
process-wide cache dictionaries by association lists, and the external OSRM
routing provider by explicit oracle arguments recording the raw network
responses; every handler that can raise an HTTP error returns `Except`.
-/

/-- Python `int(x)` applied to a float value: truncation toward zero. -/
def pyInt {α : Type} [LinearOrderedRing α] [FloorRing α] (x : α) : ℤ :=
  if 0 ≤ x then ⌊x⌋ else ⌈x⌉

/-- Python truthiness of an `Optional[str]` (`None` and `""` are falsy). -/
def pyTruthyStr : Option String → Bool
  | none => false
  | some s => s ≠ ""

/-- Python truthiness of an `Optional[int]` (`None` and `0` are falsy). -/
def pyTruthyNat : Option Nat → Bool
  | none => false
  | some n => n ≠ 0

section DistanceUtils

variable {α : Type} [LinearOrderedField α] [FloorRing α]

/-- The distance/duration correction applied by `get_road_distance` and
`get_route_with_geometry` (src/utils/distance.py lines 86-90 and 152-155) to a
raw OSRM response: `distance_km = (distance_meters / 1000) * 1.10`,
`duration_minutes = int((duration_seconds / 60) * 1.25)`, then
`if duration_minutes == 0 and distance_km > 0.1: duration_minutes = 1`. -/
def roadCorrection (distance_meters duration_seconds : α) : α × ℤ :=
  let distance_km := distance_meters / 1000 * 1.10
  let duration_minutes := pyInt (duration_seconds / 60 * 1.25)
  (distance_km, if duration_minutes = 0 ∧ 0.1 < distance_km then 1 else duration_minutes)

/-- `get_road_distance` (src/utils/distance.py lines 49-106).  The network
interaction is abstracted into `resp`: `some (d, s)` stands for an HTTP 200
response with code "Ok" and a first route of raw distance `d` meters and raw
duration `s` seconds; `none` stands for every failure branch (non-200 status,
no routes, timeout, exception), all of which return `(None, None)`. -/
def get_road_distance (resp : Option (α × α)) : Option (α × ℤ) :=
  match resp with
  | some (d, s) => some (roadCorrection d s)
  | none => none

/-- `get_route_with_geometry` (src/utils/distance.py lines 108-171): same
correction as `get_road_distance`, with the route geometry (a list of
`[lng, lat]` pairs) carried along. -/
def get_route_with_geometry (resp : Option (α × α × List (α × α))) :
    Option (α × ℤ × List (α × α)) :=
  match resp with
  | some (d, s, coords) =>
      let c := roadCorrection d s
      some (c.1, c.2, coords)
  | none => none

/-- The divisor chosen by `calculate_eta` (src/utils/distance.py line 224):
`current_speed_kmh if (current_speed_kmh and current_speed_kmh > 5) else
avg_speed_kmh`; a `None` or zero (falsy) speed and any speed not above the
5 km/h noise floor fall back to the average speed. -/
def speed_to_use (current_speed_kmh : Option α) (avg_speed_kmh : α) : α :=
  match current_speed_kmh with
  | some s => if s ≠ 0 ∧ 5 < s then s else avg_speed_kmh
  | none => avg_speed_kmh

/-- `calculate_eta` (src/utils/distance.py lines 212-229).  The source's
default argument `avg_speed_kmh = 40.0` is passed explicitly by callers. -/
def calculate_eta (distance_km : α) (current_speed_kmh : Option α)
    (avg_speed_kmh : α) : ℤ :=
  pyInt (distance_km / speed_to_use current_speed_kmh avg_speed_kmh * 60)

end DistanceUtils

/-- `is_valid_india_location` (src/routers/location.py lines 22-28 and the
identical copy in src/routers/tracking.py lines 26-32): accept exactly the
bounding box lat 6.5..35.5, lng 68.0..97.5. -/
def is_valid_india_location (latitude longitude : ℚ) : Bool :=
  6.5 ≤ latitude ∧ latitude ≤ 35.5 ∧ 68.0 ≤ longitude ∧ longitude ≤ 97.5

section Orders

/-- `OrderStatus` (src/models/order.py). -/
inductive OrderStatus
  | pending
  | assigned
  | in_transit
  | delivered
  | cancelled
deriving DecidableEq, Repr

/-- The fields of an `Order` row that the delivery state machine reads or
writes (src/models/order.py). -/
structure OrderRec where
  id : Nat
  customer_id : Nat
  driver_id : Option Nat
  status : OrderStatus
  otp : Option String
  signature : Option String
deriving DecidableEq, Repr

/-- The `OrderUpdate` request body (src/routers/orders.py lines 73-78).
`delivery_time` only records whether a truthy value was supplied. -/
structure OrderUpdate where
  status : Option OrderStatus
  driver_id : Option Nat
  delivery_time : Bool
  signature : Option String
  otp_input : Option String
deriving DecidableEq, Repr

/-- The authenticated caller: user id and role string ("admin", "driver" or
"customer"), as exposed by `current_user` (src/models/user.py `UserRole` is a
`str` enum, so `current_user.role == "driver"` compares the value). -/
structure Caller where
  id : Nat
  role : String
deriving DecidableEq, Repr

/-- The `Transaction` fields read by the cancellation handlers
(src/models/transaction.py). -/
structure TransactionRec where
  order_id : Nat
  amount : ℚ
  paid : ℚ
  due : ℚ
deriving DecidableEq, Repr

/-- The errors `update_order` can raise: 404, the 409 single-active-delivery
conflict, and the three 400 validation errors of the delivery gate. -/
inductive UpdateError
  | notFound
  | conflictActiveDelivery (otherId : Nat)
  | otpRequired
  | otpInvalid
  | receiptRequired
deriving DecidableEq, Repr

/-- Whether an `UpdateError` is one of the HTTP 400 validation errors. -/
def UpdateError.isValidation : UpdateError → Bool
  | .otpRequired => true
  | .otpInvalid => true
  | .receiptRequired => true
  | _ => false

/-- The guard condition of src/routers/orders.py lines 561-574: the request
sets status `IN_TRANSIT`, the caller's role is "driver", and some other order
assigned to the caller is already `IN_TRANSIT`. -/
def triggersConflictGuard (orders : List OrderRec) (order_id : Nat)
    (request : OrderUpdate) (current_user : Caller) : Bool :=
  request.status = some .in_transit ∧ current_user.role = "driver" ∧
    (orders.find? (fun o =>
      o.driver_id = some current_user.id ∧ o.status = .in_transit ∧
        o.id ≠ order_id)).isSome

/-- Whether the update is treated as an attempt to complete delivery
(src/routers/orders.py line 584): explicit `status=DELIVERED` or a non-`None`
signature. -/
def willBeDelivered (request : OrderUpdate) : Bool :=
  request.status = some .delivered ∨ request.signature ≠ none

/-- The field updates applied once validation has passed (src/routers/orders.py
lines 601-612), in source order: a truthy `status` is written; a truthy
`driver_id` is written and forces status `ASSIGNED`; a truthy `signature` is
written and forces status `DELIVERED` unless the request already set
`status=DELIVERED` explicitly. -/
def applyOrderUpdate (o : OrderRec) (request : OrderUpdate) : OrderRec :=
  let o1 := match request.status with
    | some st => { o with status := st }
    | none => o
  let o2 := if pyTruthyNat request.driver_id then
      { o1 with driver_id := request.driver_id, status := .assigned }
    else o1
  if pyTruthyStr request.signature then
    { o2 with
      signature := request.signature,
      status := if request.status ≠ some .delivered then .delivered else o2.status }
  else o2

/-- The "one delivery at a time" query (src/routers/orders.py lines 561-574):
performed only when the request sets status IN_TRANSIT *and* the caller's
role is "driver"; it looks for any other order assigned to the *caller*
(`Order.driver_id == current_user.id`) that is already IN_TRANSIT, excluding
the order being updated. -/
def activeDeliveryCheck (orders : List OrderRec) (order_id : Nat)
    (request : OrderUpdate) (current_user : Caller) : Option OrderRec :=
  if request.status = some OrderStatus.in_transit ∧
      current_user.role = "driver" then
    orders.find? (fun o2 =>
      o2.driver_id = some current_user.id ∧
        o2.status = OrderStatus.in_transit ∧ o2.id ≠ order_id)
  else none

/-- The OTP / receipt delivery gate (src/routers/orders.py lines 580-599),
run whenever the update would result in DELIVERED status: a missing or empty
`otp_input` raises 400 "OTP is required", a mismatch with the order's stored
OTP raises 400 "Invalid OTP", and the absence of any receipt row for the
order raises 400 "Sale receipt is required".  Returns the error to raise, or
`none` when the request may proceed. -/
def deliveryGate (o : OrderRec) (receipts : List Nat) (order_id : Nat)
    (request : OrderUpdate) : Option UpdateError :=
  if willBeDelivered request then
    match request.otp_input with
    | none => some .otpRequired
    | some otp_in =>
      if otp_in = "" then some .otpRequired
      else if some otp_in ≠ o.otp then some .otpInvalid
      else if receipts.count order_id = 0 then some .receiptRequired
      else none
  else none

/-- `update_order` (src/routers/orders.py lines 555-615, the validation and
mutation part; the notification block that follows never changes the order).
`orders` is the orders table, `receipts` the list of order ids of stored
receipt rows.  Returns the updated order together with the updated table. -/
def update_order (orders : List OrderRec) (receipts : List Nat)
    (order_id : Nat) (request : OrderUpdate) (current_user : Caller) :
    Except UpdateError (OrderRec × List OrderRec) :=
  match orders.find? (fun o => o.id = order_id) with
  | none => .error .notFound
  | some o =>
    -- CRITICAL: one delivery at a time (lines 561-574)
    match activeDeliveryCheck orders order_id request current_user with
    | some active => .error (.conflictActiveDelivery active.id)
    | none =>
      -- SECURITY CRITICAL: OTP and receipt gate (lines 580-599)
      match deliveryGate o receipts order_id request with
      | some e => .error e
      | none =>
        let o' := applyOrderUpdate o request
        .ok (o', orders.map (fun x => if x.id = order_id then o' else x))

/-- Errors of the two cancellation handlers. -/
inductive CancelError
  | notFound
  | notCancellable
  | notAuthorized
  | hasPayments
deriving DecidableEq, Repr

/-- `cancel_order` (src/routers/orders.py lines 788-830), the handler
registered first on `DELETE /api/orders/{order_id}`: after the existence
check it unconditionally sets the status to `CANCELLED`; it performs no
payment check and never touches the transactions table. -/
def cancel_order (orders : List OrderRec) (order_id : Nat) :
    Except CancelError (List OrderRec) :=
  match orders.find? (fun o => o.id = order_id) with
  | none => .error .notFound
  | some _ =>
      .ok (orders.map (fun x =>
        if x.id = order_id then { x with status := .cancelled } else x))

/-- `delete_order` (src/routers/orders.py lines 929-975), the second handler
declared on the same route `DELETE /api/orders/{order_id}` (shadowed at
runtime by `cancel_order`, which is registered first): only PENDING or
ASSIGNED orders may be cancelled, customers must own the order, and an order
whose transaction has `paid > 0` is rejected with an HTTP 400 directing the
caller to the admin for a refund; on success the order is cancelled and the
transaction amounts are zeroed. -/
def delete_order (orders : List OrderRec) (transactions : List TransactionRec)
    (customer_of_user : Nat → Option Nat) (order_id : Nat)
    (current_user : Caller) :
    Except CancelError (List OrderRec × List TransactionRec) :=
  match orders.find? (fun o => o.id = order_id) with
  | none => .error .notFound
  | some o =>
    if o.status ≠ OrderStatus.pending ∧ o.status ≠ OrderStatus.assigned then
      .error .notCancellable
    else if current_user.role = "customer" ∧
        customer_of_user current_user.id ≠ some o.customer_id then
      .error .notAuthorized
    else
      match transactions.find? (fun t => t.order_id = order_id) with
      | some t =>
        if 0 < t.paid then .error .hasPayments
        else
          .ok (orders.map (fun x =>
                if x.id = order_id then { x with status := .cancelled } else x),
              transactions.map (fun x =>
                if x.order_id = order_id then
                  { x with amount := 0, due := 0, paid := 0 } else x))
      | none =>
        .ok (orders.map (fun x =>
              if x.id = order_id then { x with status := .cancelled } else x),
            transactions)

end Orders

section Caches

/-- A value of the process-wide `route_cache` dictionary
(src/routers/tracking.py line 21): the driver and customer positions at which
the route was fetched, and the route geometry. -/
structure RouteEntryQ where
  driver_lat : ℚ
  driver_lng : ℚ
  cust_lat : ℚ
  cust_lng : ℚ
  geometry : List (ℚ × ℚ)
deriving DecidableEq, Repr

/-- Dictionary lookup on an association-list model of a Python dict. -/
def mapGet {A : Type} (m : List (Nat × A)) (k : Nat) : Option A :=
  (m.find? (fun p => p.1 = k)).map (fun p => p.2)

/-- `del m[k]` (also models `if k in m: del m[k]`, a no-op when absent). -/
def mapErase {A : Type} (m : List (Nat × A)) (k : Nat) : List (Nat × A) :=
  m.filter (fun p => p.1 ≠ k)

/-- `m[k] = v`. -/
def mapSet {A : Type} (m : List (Nat × A)) (k : Nat) (v : A) : List (Nat × A) :=
  (k, v) :: mapErase m k

/-- Errors raised by the tracking handlers. -/
inductive TrackError
  | notFound
  | notAuthorized
  | customerLocationUnavailable
  | noRoutes
deriving DecidableEq, Repr

/-- `select_route` (src/routers/tracking.py lines 284-310): after the order
lookup and the driver-ownership check, it stores the chosen index in
`selected_route_cache[order_id]` and deletes `route_cache[order_id]` if
present.  Returns the result together with the two caches. -/
def select_route (orders : List OrderRec) (route_cache : List (Nat × RouteEntryQ))
    (selected_route_cache : List (Nat × Nat)) (order_id route_index : Nat)
    (current_user : Caller) :
    Except TrackError Nat × List (Nat × RouteEntryQ) × List (Nat × Nat) :=
  match orders.find? (fun o => o.id = order_id) with
  | none => (.error .notFound, route_cache, selected_route_cache)
  | some o =>
    if current_user.role = "driver" ∧ o.driver_id ≠ some current_user.id then
      (.error .notAuthorized, route_cache, selected_route_cache)
    else
      (.ok route_index, mapErase route_cache order_id,
        mapSet selected_route_cache order_id route_index)

/-- `recalculate_route` (src/routers/tracking.py lines 312-385).  `cust` is the
resolved customer position (the order's delivery GPS fields, falling back to
the customer record; `none` when neither is available).  The OSRM interaction
is abstracted into the oracle arguments: `alts` is the list of alternative
routes returned by `get_alternative_routes` — each represented by its
coordinate list, the only field the cache stores; `[]` models every provider
failure — and `geom_fallback` is the raw response of the fallback
`get_route_with_geometry` call.  Note that the handler deletes
`route_cache[order_id]` and resets `selected_route_cache[order_id] = 0`
*before* contacting the provider, and stores the first returned route as the
new cache entry afterwards; when no route can be obtained it raises 404 with
the deletions already applied. -/
def recalculate_route (orders : List OrderRec)
    (route_cache : List (Nat × RouteEntryQ))
    (selected_route_cache : List (Nat × Nat)) (order_id : Nat)
    (driver_lat driver_lng : ℚ) (cust : Option (ℚ × ℚ))
    (alts : List (List (ℚ × ℚ))) (geom_fallback : Option (ℚ × ℚ × List (ℚ × ℚ)))
    (current_user : Caller) :
    Except TrackError (List (List (ℚ × ℚ))) ×
      List (Nat × RouteEntryQ) × List (Nat × Nat) :=
  match orders.find? (fun o => o.id = order_id) with
  | none => (.error .notFound, route_cache, selected_route_cache)
  | some o =>
    if current_user.role = "driver" ∧ o.driver_id ≠ some current_user.id then
      (.error .notAuthorized, route_cache, selected_route_cache)
    else
      match cust with
      | none => (.error .customerLocationUnavailable, route_cache,
          selected_route_cache)
      | some (cust_lat, cust_lng) =>
        -- the handler deletes route_cache[order_id] and resets
        -- selected_route_cache[order_id] = 0 before contacting the provider,
        -- so both mutations appear in every outcome below
        match (if alts ≠ [] then alts else
          match get_route_with_geometry geom_fallback with
          | some (_, _, coords) => if coords ≠ [] then [coords] else []
          | none => []) with
        | [] => (.error .noRoutes, mapErase route_cache order_id,
            mapSet selected_route_cache order_id 0)
        | first :: rest =>
          (.ok (first :: rest),
            mapSet (mapErase route_cache order_id) order_id
              ⟨driver_lat, driver_lng, cust_lat, cust_lng, first⟩,
            mapSet selected_route_cache order_id 0)

/-- `cancel_order` viewed together with the process-wide caches: the handler
body (src/routers/orders.py lines 788-830) contains no reference to
`route_cache` or `selected_route_cache` (src/routers/orders.py does not
even name them), so a cancellation leaves both dictionaries exactly as they
were. -/
def cancel_order_with_caches (orders : List OrderRec)
    (route_cache : List (Nat × RouteEntryQ))
    (selected_route_cache : List (Nat × Nat)) (order_id : Nat) :
    Except CancelError (List OrderRec) ×
      List (Nat × RouteEntryQ) × List (Nat × Nat) :=
  (cancel_order orders order_id, route_cache, selected_route_cache)

end Caches

section Broadcast

/-- A live WebSocket connection in a registry; `send_ok` abstracts whether
`await websocket.send_json(...)` succeeds or raises on it. -/
structure Conn where
  cid : Nat
  send_ok : Bool
deriving DecidableEq, Repr

/-- `send_json` on a connection, as a fallible operation. -/
def trySend (c : Conn) : Except Unit Unit :=
  if c.send_ok then .ok () else .error ()

/-- One iteration of a broadcast send loop: `try: send_json; except:` — on
success the connection id joins the delivered list, on failure the exception
is swallowed and nothing else happens in this step. -/
def broadcastStep (acc : List Nat) (c : Conn) : List Nat :=
  match trySend c with
  | .ok _ => acc ++ [c.cid]
  | .error _ => acc

/-- `ConnectionManager.broadcast` (src/routers/location.py lines 79-85 and the
identical src/routers/tracking.py lines 399-404): iterate over
`active_connections`, `try: send_json` and `except: pass`.  Returns the ids
the message was delivered to, and the registry afterwards — the handler never
mutates `active_connections`, so the registry is returned as it was.  The
function is total: a send failure is swallowed and never reaches the
caller. -/
def connection_manager_broadcast (active_connections : List Conn) :
    List Nat × List Conn :=
  (active_connections.foldl broadcastStep [], active_connections)

/-- `NotificationConnectionManager.broadcast_to_role`
(src/services/notification_broadcast.py lines 69-88): send to every connection
registered for the role, collect the connections whose send failed, then
remove each of them (first occurrence) from the role registry.  Returns the
ids delivered to and the role registry afterwards.  Total: failures are
swallowed, nothing propagates to the caller. -/
def broadcast_to_role (role_connections : List Conn) : List Nat × List Conn :=
  let disconnected := role_connections.filter (fun c => ¬ c.send_ok)
  (role_connections.foldl broadcastStep [],
    disconnected.foldl (fun l c => l.erase c) role_connections)

end Broadcast

section LocationIngestion

/-- A persisted `TruckLocation` row (src/models/truck_location.py), reduced to
the fields the ingestion claims mention. -/
structure LocationRow where
  driver_id : Nat
  latitude : ℚ
  longitude : ℚ
deriving DecidableEq, Repr

/-- `update_location` (src/routers/location.py lines 89-180): the geofence
check guards persistence; on rejection an HTTP 400 with an explicit detail
message is raised and nothing is stored.  (The response formatting, broadcast
and activity log that follow a successful insert do not affect the stored
data.) -/
def update_location (db : List LocationRow) (driver_id : Nat)
    (latitude longitude : ℚ) : Except String (List LocationRow) :=
  if ¬ is_valid_india_location latitude longitude then
    .error "Invalid location - coordinates outside service area"
  else
    .ok (⟨driver_id, latitude, longitude⟩ :: db)

/-- The legacy `update_location` of src/routers/tracking.py lines 408-426:
same geofence gate, same 400 on rejection. -/
def tracking_update_location (db : List LocationRow) (driver_id : Nat)
    (latitude longitude : ℚ) : Except String (List LocationRow) :=
  if ¬ is_valid_india_location latitude longitude then
    .error "Invalid location - coordinates outside service area"
  else
    .ok (⟨driver_id, latitude, longitude⟩ :: db)

/-- Python truthiness of an optional float: `None` and `0` are falsy. -/
def pyTruthyQ (a : Option ℚ) : Bool := a.getD 0 ≠ 0

/-- Python `a or b` on optional floats: `b` when `a` is falsy. -/
def pyOrQ (a b : Option ℚ) : Option ℚ := if pyTruthyQ a then a else b

/-- One iteration of the driver WebSocket receive loop
(src/routers/tracking.py lines 441-475).  The parsed JSON fields are the four
optional coordinates (`latitude`/`lat`, `longitude`/`long`).  Returns the
location table afterwards, the broadcast payload fanned out to the watching
connections (if any), and the message sent back to the submitting driver
device — which is always `none`: a missing or out-of-bounds coordinate makes
the loop `continue` silently, and nothing is ever sent to the driver. -/
def websocket_receive_step (db : List LocationRow) (driver_id : Nat)
    (latitude lat longitude lng : Option ℚ) :
    List LocationRow × Option (Nat × ℚ × ℚ) × Option String :=
  let la := pyOrQ latitude lat
  let lo := pyOrQ longitude lng
  if ¬ pyTruthyQ la ∨ ¬ pyTruthyQ lo then (db, none, none)
  else
    let lav := la.getD 0
    let lov := lo.getD 0
    if ¬ is_valid_india_location lav lov then (db, none, none)
    else (⟨driver_id, lav, lov⟩ :: db, some (driver_id, lav, lov), none)

end LocationIngestion

noncomputable section RealDistance

/-- `math.radians` — degrees to radians. -/
def radians (x : ℝ) : ℝ := x * Real.pi / 180

/-- `haversine_distance` (src/utils/distance.py lines 22-47): great-circle
distance in kilometers with Earth radius `r = 6371`. -/
def haversine_distance (lat1 lon1 lat2 lon2 : ℝ) : ℝ :=
  let lat1_rad := radians lat1
  let lon1_rad := radians lon1
  let lat2_rad := radians lat2
  let lon2_rad := radians lon2
  let dlat := lat2_rad - lat1_rad
  let dlon := lon2_rad - lon1_rad
  let a := Real.sin (dlat / 2) ^ 2 +
    Real.cos lat1_rad * Real.cos lat2_rad * Real.sin (dlon / 2) ^ 2
  let c := 2 * Real.arcsin (Real.sqrt a)
  c * 6371

/-- `get_distance_and_eta` (src/utils/distance.py lines 173-210).  `road_resp`
is the raw OSRM response oracle passed through to `get_road_distance`; when
the road attempt yields nothing usable the function falls back to the
Haversine distance and `calculate_eta` with the default 40 km/h average
speed.  The third component is the `is_road_distance` flag. -/
def get_distance_and_eta (road_resp : Option (ℝ × ℝ))
    (driver_lat driver_lon customer_lat customer_lon : ℝ)
    (current_speed_kmh : Option ℝ) (use_road_distance : Bool) :
    ℝ × ℤ × Bool :=
  match (if use_road_distance then get_road_distance road_resp else none) with
  | some (d, e) => (d, e, true)
  | none =>
    let straight_distance :=
      haversine_distance driver_lat driver_lon customer_lat customer_lon
    (straight_distance,
      calculate_eta straight_distance current_speed_kmh 40, false)

/-- A `route_cache` value over `ℝ`, for the tracking-query model. -/
structure RouteEntryR where
  driver_lat : ℝ
  driver_lng : ℝ
  cust_lat : ℝ
  cust_lng : ℝ
  geometry : List (ℝ × ℝ)

/-- Outcome of the route/distance part of one tracking query: the values that
feed the `OrderTrackingResponse` (before the display rounding of line 224),
the `route_cache` entry for the order afterwards, and how many times each
OSRM entry point was invoked during the query (`get_route_with_geometry`
respectively `get_road_distance`). -/
structure TrackOut where
  distance_km : Option ℝ
  eta_minutes : Option ℤ
  route_geometry : Option (List (ℝ × ℝ))
  cache_after : Option RouteEntryR
  geometry_provider_calls : Nat
  distance_provider_calls : Nat

/-- The route/distance computation of one `get_order_tracking` query
(src/routers/tracking.py lines 150-207), for an order in a trackable status
with a located driver at `(driver_lat, driver_lng)` and a resolved customer
position `(cust_lat, cust_lng)`.  `cached` is `route_cache.get(order_id)`;
`geom1` and `geom2` are the raw OSRM responses of the first and (if reached)
second `get_route_with_geometry` call, and `road_resp` the raw response
behind the `get_road_distance` call made inside `get_distance_and_eta`.

The let-bindings mirror the source's sequential assignments: `distance_km`,
`eta_minutes` and `route_geometry` all start as `None` (lines 141-143); the
staleness check (lines 152-163) may fill `route_geometry` from the cache and
clear `should_refetch`; the refetch block (lines 165-185) runs only when
`should_refetch` is set, overwrites the cache entry when it obtains a
non-empty geometry and otherwise falls back to the stale cached geometry; the
distance fallback (lines 187-193) calls `get_distance_and_eta` whenever
`distance_km` is still `None`; and the second geometry attempt (lines
195-205) fires when there is a distance but still no geometry. -/
def get_order_tracking_route (cached : Option RouteEntryR)
    (driver_lat driver_lng cust_lat cust_lng : ℝ) (speed : Option ℝ)
    (geom1 geom2 : Option (ℝ × ℝ × List (ℝ × ℝ)))
    (road_resp : Option (ℝ × ℝ)) : TrackOut :=
  -- lines 152-163: staleness check, producing (route_geometry, should_refetch)
  let staleness : Option (List (ℝ × ℝ)) × Bool :=
    match cached with
    | some c =>
      if haversine_distance c.driver_lat c.driver_lng driver_lat driver_lng *
          1000 < 100 then
        (some c.geometry, false)
      else (none, true)
    | none => (none, true)
  let route_geometryA := staleness.1
  let should_refetch := staleness.2
  -- lines 165-185: refetch, producing
  -- (distance_km, eta_minutes, route_geometry, cache entry, geometry calls)
  let refetch : Option ℝ × Option ℤ × Option (List (ℝ × ℝ)) ×
      Option RouteEntryR × Nat :=
    if should_refetch then
      match get_route_with_geometry geom1 with
      | some (dk, dm, coords) =>
        let geomB := if coords ≠ [] then some coords else route_geometryA
        let cacheB := if coords ≠ [] then
            some (⟨driver_lat, driver_lng, cust_lat, cust_lng, coords⟩ :
              RouteEntryR)
          else cached
        -- lines 183-185: stale cached geometry as a fallback
        let geomC := match geomB, cached with
          | none, some c => some c.geometry
          | g, _ => g
        (some dk, some dm, geomC, cacheB, 1)
      | none =>
        let geomC := match route_geometryA, cached with
          | none, some c => some c.geometry
          | g, _ => g
        ((none : Option ℝ), (none : Option ℤ), geomC, cached, 1)
    else ((none : Option ℝ), (none : Option ℤ), route_geometryA, cached, 0)
  let distance_kmA := refetch.1
  let eta_minutesA := refetch.2.1
  let route_geometryB := refetch.2.2.1
  let cacheA := refetch.2.2.2.1
  let geom_calls := refetch.2.2.2.2
  -- lines 187-193: distance fallback when distance_km is still None
  let fallback : Option ℝ × Option ℤ × Nat :=
    match distance_kmA with
    | none =>
      let fb := get_distance_and_eta road_resp driver_lat driver_lng
        cust_lat cust_lng speed true
      (some fb.1, some fb.2.1, 1)
    | some d => (some d, eta_minutesA, 0)
  let distance_kmB := fallback.1
  let eta_minutesB := fallback.2.1
  let dist_calls := fallback.2.2
  -- lines 195-205: second geometry attempt
  if route_geometryB.isNone ∧ distance_kmB.isSome then
    match get_route_with_geometry geom2 with
    | some (_, _, coords2) =>
      if coords2 ≠ [] then
        ⟨distance_kmB, eta_minutesB, some coords2,
          some ⟨driver_lat, driver_lng, cust_lat, cust_lng, coords2⟩,
          geom_calls + 1, dist_calls⟩
      else ⟨distance_kmB, eta_minutesB, route_geometryB, cacheA,
        geom_calls + 1, dist_calls⟩
    | none => ⟨distance_kmB, eta_minutesB, route_geometryB, cacheA,
        geom_calls + 1, dist_calls⟩
  else ⟨distance_kmB, eta_minutesB, route_geometryB, cacheA,
    geom_calls, dist_calls⟩

end RealDistance

/-! ## Theorems -/

section C10Claims

/-- C10: `calculate_eta` is total and safe — for every `distance_km ≥ 0` and
every optional `current_speed_kmh` (including `None`, zero and negative
values) the divisor is the live speed only when it is strictly greater than
5 km/h and is otherwise the positive default 40 km/h, so no division by zero
occurs and the returned ETA is a non-negative integer. -/
theorem calculate_eta_total_nonneg (distance_km : ℝ)
    (current_speed_kmh : Option ℝ) (hd : 0 ≤ distance_km) :
    0 < speed_to_use current_speed_kmh (40 : ℝ) ∧
      (∀ s, current_speed_kmh = some s → ¬ (s ≠ 0 ∧ 5 < s) →
        speed_to_use current_speed_kmh (40 : ℝ) = 40) ∧
      0 ≤ calculate_eta distance_km current_speed_kmh 40 := by
  have hsp : 0 < speed_to_use current_speed_kmh (40 : ℝ) := by
    cases current_speed_kmh with
    | none => norm_num [speed_to_use]
    | some v =>
      by_cases h : v ≠ 0 ∧ 5 < v
      · simp only [speed_to_use, if_pos h]
        linarith [h.2]
      · simp only [speed_to_use, if_neg h]
        norm_num
  refine ⟨hsp, ?_, ?_⟩
  · intro s hs hcond
    subst hs
    simp only [speed_to_use, if_neg hcond]
  · have hx : 0 ≤ distance_km / speed_to_use current_speed_kmh (40 : ℝ) * 60 :=
      by positivity
    simp only [calculate_eta, pyInt, if_pos hx]
    exact Int.floor_nonneg.mpr hx

/-- Witness for `calculate_eta_total_nonneg` at distance 19 km and a zero
(falsy) live speed. -/
theorem calculate_eta_total_nonneg_witness :
    0 < speed_to_use (some (0 : ℝ)) (40 : ℝ) ∧
      (∀ s, (some (0 : ℝ)) = some s → ¬ (s ≠ 0 ∧ 5 < s) →
        speed_to_use (some (0 : ℝ)) (40 : ℝ) = 40) ∧
      0 ≤ calculate_eta (19 : ℝ) (some 0) 40 :=
  calculate_eta_total_nonneg 19 (some 0) (by norm_num)

end C10Claims

section C8Claims

/-- The duration rule exactly as claim C8 words it (for comparison with the
source's `roadCorrection`): the corrected duration is floored to 1 minute
exactly when it rounds to 0 and the *raw* distance in meters exceeds 100. -/
def claimDurationRule (distance_meters duration_seconds : ℚ) : ℤ :=
  let v := pyInt (duration_seconds / 60 * 1.25)
  if v = 0 ∧ 100 < distance_meters then 1 else v

/-- C8 counterexample: for a raw OSRM distance of 95 m (≤ 100 m) and raw
duration 0 s, the code returns a duration of 1 minute (because the *corrected*
distance `0.1045 km` exceeds `0.1 km`), while the claim's rule — floor to 1
only when the raw distance exceeds 100 m — yields 0. -/
theorem roadCorrection_floor_counterexample :
    (roadCorrection (95 : ℚ) 0).2 = 1 ∧ claimDurationRule 95 0 = 0 := by
  constructor
  · norm_num [roadCorrection, pyInt]
  · norm_num [claimDurationRule, pyInt]

/-- C8 amended: for a successful provider response with raw distance `d` m and
raw duration `s` s (`s ≥ 0`), `get_road_distance` returns distance
`(d/1000) × 1.10` km and duration `⌊(s/60) × 1.25⌋` minutes, floored to
1 minute exactly when that value is 0 and the *corrected* distance exceeds
0.1 km — equivalently, when the raw distance exceeds `1000/11 ≈ 90.9` m. -/
theorem get_road_distance_correction (d s : ℚ) (hs : 0 ≤ s) :
    get_road_distance (some (d, s)) =
      some (d / 1000 * 1.10,
        if ⌊s / 60 * 1.25⌋ = 0 ∧ 1000 / 11 < d then 1
        else ⌊s / 60 * 1.25⌋) := by
  have hnn : (0 : ℚ) ≤ s / 60 * 1.25 := by positivity
  have hiff : ((0.1 : ℚ) < d / 1000 * 1.10) ↔ ((1000 / 11 : ℚ) < d) := by
    norm_num
    constructor <;> intro h <;> linarith
  simp only [get_road_distance, roadCorrection, pyInt, if_pos hnn, hiff]

/-- Witness for `get_road_distance_correction` at 95 m / 0 s: the corrected
pair is `(0.1045 km, 1 min)`. -/
theorem get_road_distance_correction_witness :
    get_road_distance (some ((95 : ℚ), 0)) = some (95 / 1000 * 1.10, 1) := by
  rw [get_road_distance_correction 95 0 (le_refl 0)]
  norm_num

end C8Claims

section C6Claims

/-- C6: evaluation at the failing input.  Order 1 is PENDING and its
transaction records `paid = 500 > 0`; the `DELETE /api/orders/1` request is
served by `cancel_order` (the handler registered first on that route), which
cancels unconditionally — while the shadowed `delete_order` handler on the
same route would reject exactly as the claim demands. -/
theorem cancel_order_ignores_payments :
    cancel_order [⟨1, 10, some 5, OrderStatus.pending, some "482913", none⟩] 1 =
      .ok [⟨1, 10, some 5, OrderStatus.cancelled, some "482913", none⟩] ∧
    delete_order [⟨1, 10, some 5, OrderStatus.pending, some "482913", none⟩]
        [⟨1, 1000, 500, 500⟩] (fun _ => none) 1 ⟨99, "admin"⟩ =
      .error .hasPayments := by
  constructor
  · rfl
  · rfl

end C6Claims

section C4Claims

/-- C4 counterexample: a GPS sample at lat 50, lng 100 (outside the bounding
box) arriving on the driver WebSocket is dropped silently: the location table
is unchanged (no persist), nothing is broadcast, and no error message of any
kind is sent back to the submitting driver device — contradicting the claim
that every ingestion path surfaces an explicit validation error. -/
theorem websocket_silent_drop_counterexample :
    websocket_receive_step [] 7 (some 50) none (some 100) none =
      ([], none, none) := by
  norm_num [websocket_receive_step, pyOrQ, pyTruthyQ, is_valid_india_location]

/-- C4 amended: for every out-of-bounds coordinate pair no ingestion path
persists a location record; the two HTTP endpoints reject with an explicit
HTTP 400 validation error, but the driver WebSocket loop skips the sample
silently (`continue`), persisting nothing, broadcasting nothing and sending
nothing back to the device. -/
theorem geofence_rejection_paths (db : List LocationRow) (driver_id : Nat)
    (la lo : ℚ) (hinvalid : is_valid_india_location la lo = false) :
    update_location db driver_id la lo =
      .error "Invalid location - coordinates outside service area" ∧
    tracking_update_location db driver_id la lo =
      .error "Invalid location - coordinates outside service area" ∧
    (∀ lat1 lat2 lng1 lng2 : Option ℚ,
      pyOrQ lat1 lat2 = some la → pyOrQ lng1 lng2 = some lo →
      websocket_receive_step db driver_id lat1 lat2 lng1 lng2 =
        (db, none, none)) := by
  refine ⟨?_, ?_, ?_⟩
  · simp [update_location, hinvalid]
  · simp [tracking_update_location, hinvalid]
  · intro lat1 lat2 lng1 lng2 hla hlo
    simp only [websocket_receive_step, hla, hlo]
    by_cases h1 : pyTruthyQ (some la) = true
    · by_cases h2 : pyTruthyQ (some lo) = true
      · have : ¬ (¬ pyTruthyQ (some la) = true ∨ ¬ pyTruthyQ (some lo) = true) := by
          simp [h1, h2]
        rw [if_neg this]
        simp only [Option.getD_some]
        rw [if_pos (by simp [hinvalid])]
      · rw [if_pos (Or.inr h2)]
    · rw [if_pos (Or.inl h1)]

/-- Witness for `geofence_rejection_paths` at lat 50, lng 100. -/
theorem geofence_rejection_paths_witness :
    update_location [] 7 50 100 =
      .error "Invalid location - coordinates outside service area" ∧
    tracking_update_location [] 7 50 100 =
      .error "Invalid location - coordinates outside service area" ∧
    (∀ lat1 lat2 lng1 lng2 : Option ℚ,
      pyOrQ lat1 lat2 = some 50 → pyOrQ lng1 lng2 = some 100 →
      websocket_receive_step [] 7 lat1 lat2 lng1 lng2 = ([], none, none)) :=
  geofence_rejection_paths [] 7 50 100
    (by simp [is_valid_india_location]; norm_num)

end C4Claims

section C7Claims

lemma broadcastStep_ok (acc : List Nat) (c : Conn) (h : c.send_ok = true) :
    broadcastStep acc c = acc ++ [c.cid] := by
  simp [broadcastStep, trySend, h]

lemma broadcastStep_fail (acc : List Nat) (c : Conn) (h : c.send_ok = false) :
    broadcastStep acc c = acc := by
  simp [broadcastStep, trySend, h]

/-- The send loop shared by both broadcast implementations delivers exactly to
the connections whose send succeeds, in registry order. -/
lemma broadcast_fold_delivered (l : List Conn) (acc : List Nat) :
    l.foldl broadcastStep acc =
      acc ++ (l.filter (fun c => c.send_ok)).map (fun c => c.cid) := by
  induction l generalizing acc with
  | nil => simp
  | cons c t ih =>
    simp only [List.foldl_cons]
    by_cases h : c.send_ok
    · rw [broadcastStep_ok acc c h, ih]
      simp [List.filter_cons, h]
    · rw [broadcastStep_fail acc c (by simpa using h), ih]
      simp [List.filter_cons, h]

/-- Erasing every failing connection from a duplicate-free registry leaves
exactly the connections whose send succeeded. -/
lemma erase_fold_filter (l : List Conn) (hnd : l.Nodup) :
    (l.filter (fun c => ¬ c.send_ok)).foldl (fun m c => m.erase c) l =
      l.filter (fun c => c.send_ok) := by
  have h1 : (l.filter (fun c => ¬ c.send_ok)).foldl
      (fun m c => m.erase c) l = l.diff (l.filter (fun c => ¬ c.send_ok)) := by
    rw [List.diff_eq_foldl]
  rw [h1, hnd.diff_eq_filter]
  apply List.filter_congr
  intro c hc
  by_cases h : c.send_ok <;> simp [h, List.mem_filter, hc]

/-- C7 amended: for every broadcast in which sending fails on a subset of a
duplicate-free registry, the message is still delivered to every connection
whose send succeeds and the operation returns normally (both models are total
functions; each `send_json` failure is caught in the loop); but only
`NotificationConnectionManager.broadcast_to_role` removes the failing
connections from its registry — `ConnectionManager.broadcast`
(location/tracking) swallows the failure with `pass` and leaves the registry
unchanged, dead connections included. -/
theorem broadcast_best_effort (conns : List Conn) (hnd : conns.Nodup) :
    (broadcast_to_role conns).1 =
        (conns.filter (fun c => c.send_ok)).map (fun c => c.cid) ∧
      (broadcast_to_role conns).2 = conns.filter (fun c => c.send_ok) ∧
      (connection_manager_broadcast conns).1 =
        (conns.filter (fun c => c.send_ok)).map (fun c => c.cid) ∧
      (connection_manager_broadcast conns).2 = conns := by
  refine ⟨?_, ?_, ?_, rfl⟩
  · simpa using broadcast_fold_delivered conns []
  · simpa [broadcast_to_role] using erase_fold_filter conns hnd
  · simpa using broadcast_fold_delivered conns []

/-- Witness for `broadcast_best_effort` on a three-connection registry whose
middle connection fails. -/
theorem broadcast_best_effort_witness :
    (broadcast_to_role [⟨1, true⟩, ⟨2, false⟩, ⟨3, true⟩]).1 =
        (([⟨1, true⟩, ⟨2, false⟩, ⟨3, true⟩] :
          List Conn).filter (fun c => c.send_ok)).map (fun c => c.cid) ∧
      (broadcast_to_role [⟨1, true⟩, ⟨2, false⟩, ⟨3, true⟩]).2 =
        ([⟨1, true⟩, ⟨2, false⟩, ⟨3, true⟩] :
          List Conn).filter (fun c => c.send_ok) ∧
      (connection_manager_broadcast [⟨1, true⟩, ⟨2, false⟩, ⟨3, true⟩]).1 =
        (([⟨1, true⟩, ⟨2, false⟩, ⟨3, true⟩] :
          List Conn).filter (fun c => c.send_ok)).map (fun c => c.cid) ∧
      (connection_manager_broadcast [⟨1, true⟩, ⟨2, false⟩, ⟨3, true⟩]).2 =
        [⟨1, true⟩, ⟨2, false⟩, ⟨3, true⟩] :=
  broadcast_best_effort [⟨1, true⟩, ⟨2, false⟩, ⟨3, true⟩] (by decide)

/-- C7 counterexample: broadcasting over the location/tracking
`ConnectionManager` registry `[1 (ok), 2 (dead), 3 (ok)]` delivers to 1 and 3,
but the dead connection 2 is *not* removed from the registry — the claim's
"each failing connection is removed from the registry" fails on this
implementation. -/
theorem connection_manager_keeps_dead_counterexample :
    (connection_manager_broadcast [⟨1, true⟩, ⟨2, false⟩, ⟨3, true⟩]).1 =
        [1, 3] ∧
      Conn.mk 2 false ∈
        (connection_manager_broadcast [⟨1, true⟩, ⟨2, false⟩, ⟨3, true⟩]).2 := by
  constructor
  · rfl
  · simp [connection_manager_broadcast]

end C7Claims

section C5Claims

lemma mapGet_mapSet_self {A : Type} (m : List (Nat × A)) (k : Nat) (v : A) :
    mapGet (mapSet m k v) k = some v := by
  simp [mapGet, mapSet, List.find?]

lemma mapGet_mapErase_self {A : Type} (m : List (Nat × A)) (k : Nat) :
    mapGet (mapErase m k) k = none := by
  have h : (mapErase m k).find? (fun p => p.1 = k) = none := by
    rw [List.find?_eq_none]
    intro p hp
    simp only [mapErase, List.mem_filter] at hp
    simpa using hp.2
  simp [mapGet, h]

/-- C5 amended: the two cache maps are touched only by the route handlers —
on `select_route` the geometry cache entry for the order is deleted while the
selected-route index is *overwritten* with the new selection (it survives,
rewritten); on `recalculate_route` the old geometry entry is deleted and the
index reset to 0, after which a fresh geometry entry for the new driver
position is stored; and a terminal transition (`cancel_order`) does not
invalidate anything: both entries survive unchanged. -/
theorem cache_lifecycle_events :
    (∀ orders rc sc oid idx u r rc' sc',
        select_route orders rc sc oid idx u = (.ok r, rc', sc') →
        mapGet rc' oid = none ∧ mapGet sc' oid = some idx) ∧
      (∀ orders rc sc oid dla dln cl cg alts gf u first rest rc' sc',
        recalculate_route orders rc sc oid dla dln (some (cl, cg)) alts gf u =
          (.ok (first :: rest), rc', sc') →
        mapGet rc' oid = some ⟨dla, dln, cl, cg, first⟩ ∧
          mapGet sc' oid = some 0) ∧
      (∀ orders rc sc oid,
        cancel_order_with_caches orders rc sc oid =
          (cancel_order orders oid, rc, sc)) := by
  refine ⟨?_, ?_, fun _ _ _ _ => rfl⟩
  · intro orders rc sc oid idx u r rc' sc' h
    unfold select_route at h
    split at h
    · simp at h
    · split at h
      · simp at h
      · simp only [Prod.mk.injEq] at h
        obtain ⟨-, h2, h3⟩ := h
        subst h2
        subst h3
        exact ⟨mapGet_mapErase_self rc oid, mapGet_mapSet_self sc oid idx⟩
  · intro orders rc sc oid dla dln cl cg alts gf u first rest rc' sc' h
    unfold recalculate_route at h
    split at h
    · simp at h
    · split at h
      · simp at h
      · split at h
        · rename_i heqn
          simp at heqn
        · rename_i clat clng heq
          simp only [Option.some.injEq, Prod.mk.injEq] at heq
          obtain ⟨hcl, hcg⟩ := heq
          subst hcl
          subst hcg
          split at h
          · simp at h
          · simp only [Prod.mk.injEq, Except.ok.injEq, List.cons.injEq] at h
            obtain ⟨⟨hf, -⟩, h2, h3⟩ := h
            subst hf
            subst h2
            subst h3
            exact ⟨mapGet_mapSet_self _ oid _, mapGet_mapSet_self sc oid 0⟩

/-- Witness for `cache_lifecycle_events`, instantiating the `select_route`
part on a one-order database with a populated cache. -/
theorem cache_lifecycle_events_witness :
    mapGet (select_route [⟨1, 10, some 5, OrderStatus.assigned, none, none⟩]
        [(1, ⟨19, 72, 20, 73, [(72, 19)]⟩)] [(1, 0)] 1 2 ⟨5, "driver"⟩).2.1
        1 = none ∧
      mapGet (select_route [⟨1, 10, some 5, OrderStatus.assigned, none, none⟩]
        [(1, ⟨19, 72, 20, 73, [(72, 19)]⟩)] [(1, 0)] 1 2 ⟨5, "driver"⟩).2.2
        1 = some 2 :=
  cache_lifecycle_events.1 [⟨1, 10, some 5, OrderStatus.assigned, none, none⟩]
    [(1, ⟨19, 72, 20, 73, [(72, 19)]⟩)] [(1, 0)] 1 2 ⟨5, "driver"⟩ 2 _ _ rfl

/-- C5 counterexample: order 1 has a route-cache entry and a selected-route
index; cancelling the order succeeds (status becomes CANCELLED, a terminal
status) yet both the geometry entry and the companion index entry survive
untouched — the claim that neither survives a terminal transition is false. -/
theorem cancel_leaves_caches_counterexample :
    cancel_order_with_caches [⟨1, 10, some 5, OrderStatus.assigned, none, none⟩]
        [(1, ⟨19, 72, 20, 73, [(72, 19), (73, 20)]⟩)] [(1, 2)] 1 =
      (.ok [⟨1, 10, some 5, OrderStatus.cancelled, none, none⟩],
        [(1, ⟨19, 72, 20, 73, [(72, 19), (73, 20)]⟩)], [(1, 2)]) := by
  rfl

end C5Claims

section C2Claims

/-- C2 counterexample: driver 5 already has order 1 IN_TRANSIT; an
*admin-role* update request setting order 2 (also assigned to driver 5) to
IN_TRANSIT succeeds — the single-active-delivery conflict check at
src/routers/orders.py line 562 runs only when `current_user.role == "driver"`
— leaving a reachable state in which driver 5 holds two IN_TRANSIT orders.
This refutes both the claimed invariant and the claimed rejection
"regardless of the caller's role". -/
theorem admin_in_transit_bypass_counterexample :
    update_order
      [⟨1, 10, some 5, OrderStatus.in_transit, none, none⟩,
        ⟨2, 11, some 5, OrderStatus.assigned, none, none⟩] [] 2
      ⟨some OrderStatus.in_transit, none, false, none, none⟩ ⟨99, "admin"⟩ =
      .ok (⟨2, 11, some 5, OrderStatus.in_transit, none, none⟩,
        [⟨1, 10, some 5, OrderStatus.in_transit, none, none⟩,
          ⟨2, 11, some 5, OrderStatus.in_transit, none, none⟩]) := by
  rfl

/-- C2 amended: the conflict guard holds only on the guarded path — when the
*caller is a driver* and the request sets status IN_TRANSIT while some other
order assigned to that caller is already IN_TRANSIT, the update is rejected
with a 409 conflict (and, the handler raising before any mutation, the order
is left unchanged).  Updates by other roles and driver-assignment updates are
not subject to the check, so the at-most-one-IN_TRANSIT-per-driver invariant
does not hold over all reachable states (see the counterexample). -/
theorem driver_in_transit_conflict
    (orders : List OrderRec) (receipts : List Nat) (oid : Nat)
    (req : OrderUpdate) (u : Caller)
    (hrole : u.role = "driver")
    (hst : req.status = some OrderStatus.in_transit)
    (o : OrderRec) (ho : orders.find? (fun x => x.id = oid) = some o)
    (other : OrderRec) (hmem : other ∈ orders)
    (hdrv : other.driver_id = some u.id)
    (hos : other.status = OrderStatus.in_transit) (hne : other.id ≠ oid) :
    ∃ k, update_order orders receipts oid req u =
      .error (.conflictActiveDelivery k) := by
  have hsome : (orders.find? (fun o2 => o2.driver_id = some u.id ∧
      o2.status = OrderStatus.in_transit ∧ o2.id ≠ oid)).isSome := by
    rw [List.find?_isSome]
    exact ⟨other, hmem, by simp [hdrv, hos, hne]⟩
  obtain ⟨a, ha⟩ := Option.isSome_iff_exists.mp hsome
  have hcond : req.status = some OrderStatus.in_transit ∧
      u.role = "driver" := ⟨hst, hrole⟩
  have hadc : activeDeliveryCheck orders oid req u = some a := by
    unfold activeDeliveryCheck
    rw [if_pos hcond]
    exact ha
  refine ⟨a.id, ?_⟩
  unfold update_order
  rw [ho]
  simp only [hadc]

/-- Witness for `driver_in_transit_conflict`: driver 5 holds order 1
IN_TRANSIT and asks to move order 2 to IN_TRANSIT. -/
theorem driver_in_transit_conflict_witness :
    ∃ k, update_order
      [⟨1, 10, some 5, OrderStatus.in_transit, none, none⟩,
        ⟨2, 11, some 5, OrderStatus.assigned, none, none⟩] [] 2
      ⟨some OrderStatus.in_transit, none, false, none, none⟩ ⟨5, "driver"⟩ =
      .error (.conflictActiveDelivery k) :=
  driver_in_transit_conflict _ [] 2 _ _ rfl rfl
    ⟨2, 11, some 5, OrderStatus.assigned, none, none⟩ rfl
    ⟨1, 10, some 5, OrderStatus.in_transit, none, none⟩ (by simp)
    rfl rfl (by decide)

end C2Claims

section C1Claims

/-- When the update is not a delivery-completion attempt (no explicit
DELIVERED status and no signature), `applyOrderUpdate` can only yield status
DELIVERED if the order already was DELIVERED. -/
lemma applyOrderUpdate_not_delivered (o : OrderRec) (req : OrderUpdate)
    (hwbd : willBeDelivered req = false) :
    (applyOrderUpdate o req).status = OrderStatus.delivered →
      o.status = OrderStatus.delivered := by
  intro hdel
  simp only [willBeDelivered, decide_eq_false_iff_not, not_or, not_not] at hwbd
  obtain ⟨h1, h2⟩ := hwbd
  unfold applyOrderUpdate at hdel
  rw [h2] at hdel
  have hsig : ¬ (pyTruthyStr (none : Option String) = true) := by
    simp [pyTruthyStr]
  rw [if_neg hsig] at hdel
  by_cases hdrv : pyTruthyNat req.driver_id = true
  · rw [if_pos hdrv] at hdel
    exact absurd (show OrderStatus.assigned = OrderStatus.delivered from hdel)
      (by simp)
  · rw [if_neg hdrv] at hdel
    rcases hst : req.status with _ | st <;> rw [hst] at hdel
    · exact hdel
    · exact absurd (show st = OrderStatus.delivered from hdel)
        (fun hh => h1 (by rw [hst, hh]))

/-- Every error the delivery gate can return is an HTTP 400 validation
error. -/
lemma deliveryGate_some_validation (o : OrderRec) (receipts : List Nat)
    (oid : Nat) (req : OrderUpdate) (e : UpdateError)
    (h : deliveryGate o receipts oid req = some e) : e.isValidation = true := by
  unfold deliveryGate at h
  by_cases hwbd : willBeDelivered req = true
  · rw [if_pos hwbd] at h
    rcases hotp : req.otp_input with _ | s <;> rw [hotp] at h
    · have h' : some UpdateError.otpRequired = some e := h
      cases h'
      rfl
    · have h' : (if s = "" then some UpdateError.otpRequired
          else if some s ≠ o.otp then some UpdateError.otpInvalid
          else if receipts.count oid = 0 then some UpdateError.receiptRequired
          else none) = some e := h
      by_cases hse : s = ""
      · rw [if_pos hse] at h'
        cases h'
        rfl
      · rw [if_neg hse] at h'
        by_cases hm : some s ≠ o.otp
        · rw [if_pos hm] at h'
          cases h'
          rfl
        · rw [if_neg hm] at h'
          by_cases hrc : receipts.count oid = 0
          · rw [if_pos hrc] at h'
            cases h'
            rfl
          · rw [if_neg hrc] at h'
            cases h'
  · rw [if_neg hwbd] at h
    cases h

/-- On a delivery-completion attempt, passing the gate means the caller
supplied a non-empty OTP equal to the stored one and a receipt exists. -/
lemma deliveryGate_none_passed (o : OrderRec) (receipts : List Nat)
    (oid : Nat) (req : OrderUpdate) (hwbd : willBeDelivered req = true)
    (h : deliveryGate o receipts oid req = none) :
    (∃ s, req.otp_input = some s ∧ s ≠ "" ∧ o.otp = some s) ∧
      1 ≤ receipts.count oid := by
  unfold deliveryGate at h
  rw [if_pos hwbd] at h
  rcases hotp : req.otp_input with _ | s <;> rw [hotp] at h
  · exact absurd (show some UpdateError.otpRequired = none from h) (by simp)
  · have h' : (if s = "" then some UpdateError.otpRequired
        else if some s ≠ o.otp then some UpdateError.otpInvalid
        else if receipts.count oid = 0 then some UpdateError.receiptRequired
        else none) = none := h
    by_cases hse : s = ""
    · rw [if_pos hse] at h'
      cases h'
    · rw [if_neg hse] at h'
      by_cases hm : some s ≠ o.otp
      · rw [if_pos hm] at h'
        cases h'
      · rw [if_neg hm] at h'
        by_cases hrc : receipts.count oid = 0
        · rw [if_pos hrc] at h'
          cases h'
        · rw [not_not] at hm
          exact ⟨⟨s, rfl, hse, hm.symm⟩, Nat.one_le_iff_ne_zero.mpr hrc⟩

/-- On a delivery-completion attempt with a failing OTP or receipt check, the
gate produces an error. -/
lemma deliveryGate_fails (o : OrderRec) (receipts : List Nat) (oid : Nat)
    (req : OrderUpdate) (hwbd : willBeDelivered req = true)
    (hfail : req.otp_input = none ∨ req.otp_input = some "" ∨
      (∀ s, req.otp_input = some s → o.otp ≠ some s) ∨
      receipts.count oid = 0) :
    ∃ e, deliveryGate o receipts oid req = some e := by
  rcases hotp : req.otp_input with _ | s
  · refine ⟨.otpRequired, ?_⟩
    unfold deliveryGate
    rw [if_pos hwbd, hotp]
  · by_cases hse : s = ""
    · refine ⟨.otpRequired, ?_⟩
      unfold deliveryGate
      rw [if_pos hwbd, hotp]
      exact if_pos hse
    · by_cases hm : some s ≠ o.otp
      · refine ⟨.otpInvalid, ?_⟩
        unfold deliveryGate
        rw [if_pos hwbd, hotp]
        exact (if_neg hse).trans (if_pos hm)
      · have hrc : receipts.count oid = 0 := by
          rw [not_not] at hm
          rcases hfail with hf | hf | hf | hf
          · rw [hotp] at hf
            cases hf
          · rw [hotp] at hf
            have hs' : s = "" := by injection hf
            exact absurd hs' hse
          · exact absurd hm.symm (hf s hotp)
          · exact hf
        refine ⟨.receiptRequired, ?_⟩
        unfold deliveryGate
        rw [if_pos hwbd, hotp]
        exact (if_neg hse).trans ((if_neg hm).trans (if_pos hrc))

/-- A positive single-active-delivery check implies the conflict-guard
trigger condition. -/
lemma activeDeliveryCheck_some_triggers (orders : List OrderRec) (oid : Nat)
    (req : OrderUpdate) (u : Caller) (active : OrderRec)
    (h : activeDeliveryCheck orders oid req u = some active) :
    triggersConflictGuard orders oid req u = true := by
  unfold activeDeliveryCheck at h
  by_cases hc : req.status = some OrderStatus.in_transit ∧ u.role = "driver"
  · rw [if_pos hc] at h
    simp only [triggersConflictGuard, decide_eq_true_eq]
    exact ⟨hc.1, hc.2, Option.isSome_iff_exists.mpr ⟨active, h⟩⟩
  · rw [if_neg hc] at h
    cases h

/-- C1: the delivery gate.  For every order-update request on an existing
order `o`: (a) a successful update can change the status to DELIVERED only if
the caller supplied a non-empty `otp_input` equal to the order's stored OTP
and at least one receipt row exists for the order; (b) whenever the request
is a delivery-completion attempt (explicit DELIVERED status *or* a non-`None`
signature — the gate treats both triggers identically, being keyed on
`will_be_delivered`) and either check fails, the handler returns an error —
raised before any mutation, so the order is unchanged — and that error is one
of the HTTP 400 validation errors whenever the request does not also trip the
(earlier) IN_TRANSIT conflict guard. -/
theorem update_order_delivered_gate
    (orders : List OrderRec) (receipts : List Nat) (oid : Nat)
    (req : OrderUpdate) (u : Caller) (o : OrderRec)
    (ho : orders.find? (fun x => x.id = oid) = some o) :
    (∀ o' orders', update_order orders receipts oid req u = .ok (o', orders') →
        o'.status = OrderStatus.delivered → o.status ≠ OrderStatus.delivered →
        (∃ s, req.otp_input = some s ∧ s ≠ "" ∧ o.otp = some s) ∧
          1 ≤ receipts.count oid) ∧
      (willBeDelivered req = true →
        (req.otp_input = none ∨ req.otp_input = some "" ∨
          (∀ s, req.otp_input = some s → o.otp ≠ some s) ∨
          receipts.count oid = 0) →
        ∃ e, update_order orders receipts oid req u = .error e ∧
          (triggersConflictGuard orders oid req u = false →
            e.isValidation = true)) := by
  constructor
  · intro o' orders' hok hdel hnd
    unfold update_order at hok
    split at hok
    · rename_i heq
      rw [ho] at heq
      cases heq
    · rename_i o2 heq
      rw [ho] at heq
      injection heq with heq'
      subst heq'
      rcases hadc : activeDeliveryCheck orders oid req u with _ | active <;>
        rw [hadc] at hok
      · rcases hgate : deliveryGate o receipts oid req with _ | e <;>
          rw [hgate] at hok
        · have hok' : (Except.ok (applyOrderUpdate o req,
                orders.map (fun x => if x.id = oid then applyOrderUpdate o req
                  else x)) :
              Except UpdateError (OrderRec × List OrderRec)) =
              Except.ok (o', orders') := hok
          simp only [Except.ok.injEq, Prod.mk.injEq] at hok'
          obtain ⟨ho', -⟩ := hok'
          subst ho'
          by_cases hwbd : willBeDelivered req = true
          · exact deliveryGate_none_passed o receipts oid req hwbd hgate
          · exact absurd
              (applyOrderUpdate_not_delivered o req (by simpa using hwbd) hdel)
              hnd
        · simp at hok
      · simp at hok
  · intro hwbd hfail
    rcases hadc : activeDeliveryCheck orders oid req u with _ | active
    · obtain ⟨e, he⟩ := deliveryGate_fails o receipts oid req hwbd hfail
      refine ⟨e, ?_, fun _ => deliveryGate_some_validation o receipts oid req e he⟩
      unfold update_order
      rw [ho]
      simp only [hadc, he]
    · refine ⟨.conflictActiveDelivery active.id, ?_, ?_⟩
      · unfold update_order
        rw [ho]
        simp only [hadc]
      · intro htrg
        rw [activeDeliveryCheck_some_triggers orders oid req u active hadc]
          at htrg
        cases htrg

/-- Witness for `update_order_delivered_gate`: order 1 stores OTP "482913";
a delivery-completion request with the correct OTP but *zero* receipt rows is
rejected with a validation error. -/
theorem update_order_delivered_gate_witness :
    (∀ o' orders',
        update_order [⟨1, 10, some 5, OrderStatus.assigned, some "482913", none⟩]
          [] 1 ⟨some OrderStatus.delivered, none, false, none, some "482913"⟩
          ⟨5, "driver"⟩ = .ok (o', orders') →
        o'.status = OrderStatus.delivered →
        OrderRec.status ⟨1, 10, some 5, OrderStatus.assigned, some "482913", none⟩ ≠
          OrderStatus.delivered →
        (∃ s, OrderUpdate.otp_input
            ⟨some OrderStatus.delivered, none, false, none, some "482913"⟩ =
            some s ∧ s ≠ "" ∧
          OrderRec.otp ⟨1, 10, some 5, OrderStatus.assigned, some "482913", none⟩ =
            some s) ∧
          1 ≤ List.count 1 []) ∧
      (willBeDelivered
          ⟨some OrderStatus.delivered, none, false, none, some "482913"⟩ = true →
        (OrderUpdate.otp_input
            ⟨some OrderStatus.delivered, none, false, none, some "482913"⟩ =
            none ∨
          OrderUpdate.otp_input
            ⟨some OrderStatus.delivered, none, false, none, some "482913"⟩ =
            some "" ∨
          (∀ s, OrderUpdate.otp_input
              ⟨some OrderStatus.delivered, none, false, none, some "482913"⟩ =
              some s →
            OrderRec.otp ⟨1, 10, some 5, OrderStatus.assigned, some "482913", none⟩ ≠
              some s) ∨
          List.count 1 [] = 0) →
        ∃ e, update_order [⟨1, 10, some 5, OrderStatus.assigned, some "482913", none⟩]
            [] 1 ⟨some OrderStatus.delivered, none, false, none, some "482913"⟩
            ⟨5, "driver"⟩ = .error e ∧
          (triggersConflictGuard
              [⟨1, 10, some 5, OrderStatus.assigned, some "482913", none⟩] 1
              ⟨some OrderStatus.delivered, none, false, none, some "482913"⟩
              ⟨5, "driver"⟩ = false →
            e.isValidation = true)) :=
  update_order_delivered_gate
    [⟨1, 10, some 5, OrderStatus.assigned, some "482913", none⟩] [] 1
    ⟨some OrderStatus.delivered, none, false, none, some "482913"⟩
    ⟨5, "driver"⟩ ⟨1, 10, some 5, OrderStatus.assigned, some "482913", none⟩
    rfl

end C1Claims

section C3Claims

/-- The Haversine distance from a point to itself is zero (so an unmoved
driver always hits the 100 m staleness window). -/
lemma haversine_distance_self (lat lon : ℝ) :
    haversine_distance lat lon lat lon = 0 := by
  unfold haversine_distance radians
  simp

/-- C3 amended: on a tracking query with a cache entry whose recorded driver
position is strictly less than 100 m (Haversine) from the current one, the
query returns the cached geometry unchanged, leaves the cache entry as it
was, and performs no `get_route_with_geometry` call — but it still performs
exactly one `get_road_distance` provider call, because `distance_km` is never
populated from the cache and the fallback `get_distance_and_eta` (which tries
the road-distance provider first) always runs on this path. -/
theorem tracking_cache_hit (c : RouteEntryR) (dla dln cla cln : ℝ)
    (speed : Option ℝ) (geom1 geom2 : Option (ℝ × ℝ × List (ℝ × ℝ)))
    (road_resp : Option (ℝ × ℝ))
    (hmove : haversine_distance c.driver_lat c.driver_lng dla dln * 1000 <
      100) :
    get_order_tracking_route (some c) dla dln cla cln speed geom1 geom2
        road_resp =
      { distance_km := some (get_distance_and_eta road_resp dla dln cla cln
          speed true).1,
        eta_minutes := some (get_distance_and_eta road_resp dla dln cla cln
          speed true).2.1,
        route_geometry := some c.geometry,
        cache_after := some c,
        geometry_provider_calls := 0,
        distance_provider_calls := 1 } := by
  simp only [get_order_tracking_route, if_pos hmove]
  simp

/-- Witness for `tracking_cache_hit`: the driver has not moved at all from
the cached position. -/
theorem tracking_cache_hit_witness :
    get_order_tracking_route (some ⟨19, 72, 20, 73, [(72, 19)]⟩) 19 72 20 73
        none none none none =
      { distance_km := some (get_distance_and_eta none 19 72 20 73
          none true).1,
        eta_minutes := some (get_distance_and_eta none 19 72 20 73
          none true).2.1,
        route_geometry := some [(72, 19)],
        cache_after := some ⟨19, 72, 20, 73, [(72, 19)]⟩,
        geometry_provider_calls := 0,
        distance_provider_calls := 1 } :=
  tracking_cache_hit ⟨19, 72, 20, 73, [(72, 19)]⟩ 19 72 20 73 none none none
    none (by
      show haversine_distance 19 72 19 72 * 1000 < 100
      rw [haversine_distance_self]
      norm_num)

/-- C3 counterexample: with a cache entry for the order and a driver
displacement of 0 m (< 100 m), the tracking query returns the cached
geometry but still invokes the routing provider once — the
`get_road_distance` call made for distance/duration — refuting the claim
that no provider call of any kind happens on a cache hit. -/
theorem tracking_cache_hit_calls_provider_counterexample :
    (get_order_tracking_route (some ⟨19, 72, 20, 73, [(72, 19), (73, 20)]⟩)
        19 72 20 73 none none none none).distance_provider_calls = 1 ∧
      (get_order_tracking_route (some ⟨19, 72, 20, 73, [(72, 19), (73, 20)]⟩)
        19 72 20 73 none none none none).geometry_provider_calls = 0 ∧
      (get_order_tracking_route (some ⟨19, 72, 20, 73, [(72, 19), (73, 20)]⟩)
        19 72 20 73 none none none none).route_geometry =
        some [(72, 19), (73, 20)] := by
  have hmove : haversine_distance 19 72 19 72 * (1000 : ℝ) < 100 := by
    rw [haversine_distance_self]
    norm_num
  refine ⟨?_, ?_, ?_⟩ <;>
    · simp only [get_order_tracking_route, if_pos hmove]
      simp

end C3Claims

section C9Claims

/-- The ETA divisor is always positive (live speed only above the 5 km/h
floor, default 40 otherwise). -/
lemma speed_to_use_pos (sp : Option ℝ) : 0 < speed_to_use sp (40 : ℝ) := by
  cases sp with
  | none => norm_num [speed_to_use]
  | some v =>
    by_cases h : v ≠ 0 ∧ 5 < v
    · simp only [speed_to_use, if_pos h]
      linarith [h.2]
    · simp only [speed_to_use, if_neg h]
      norm_num

/-- The Haversine distance is non-negative. -/
lemma haversine_distance_nonneg (lat1 lon1 lat2 lon2 : ℝ) :
    0 ≤ haversine_distance lat1 lon1 lat2 lon2 := by
  have h : 0 ≤ Real.arcsin (Real.sqrt
      (Real.sin ((lat2 * Real.pi / 180 - lat1 * Real.pi / 180) / 2) ^ 2 +
        Real.cos (lat1 * Real.pi / 180) * Real.cos (lat2 * Real.pi / 180) *
          Real.sin ((lon2 * Real.pi / 180 - lon1 * Real.pi / 180) / 2) ^ 2)) :=
    Real.arcsin_nonneg.mpr (Real.sqrt_nonneg _)
  show 0 ≤ 2 * Real.arcsin (Real.sqrt
      (Real.sin ((lat2 * Real.pi / 180 - lat1 * Real.pi / 180) / 2) ^ 2 +
        Real.cos (lat1 * Real.pi / 180) * Real.cos (lat2 * Real.pi / 180) *
          Real.sin ((lon2 * Real.pi / 180 - lon1 * Real.pi / 180) / 2) ^ 2)) *
      6371
  linarith

/-- On `[0, 1]`, `arcsin` dominates the identity. -/
lemma le_arcsin_of_unit (x : ℝ) (h0 : 0 ≤ x) (h1 : x ≤ 1) :
    x ≤ Real.arcsin x := by
  have hpi : (1 : ℝ) < Real.pi / 2 := by
    have := Real.pi_gt_three
    linarith
  rw [Real.le_arcsin_iff_sin_le ⟨by linarith, by linarith⟩
    ⟨by linarith, h1⟩]
  exact Real.sin_le h0

/-- For small positive arguments, `arcsin x` exceeds `x` by less than a
factor `1 + 10⁻⁵`. -/
lemma arcsin_le_small (x : ℝ) (h0 : 0 < x) (h1 : x ≤ 0.002) :
    Real.arcsin x ≤ x * (1 + 1 / 100000) := by
  have hpi : (1.5 : ℝ) < Real.pi / 2 := by
    have := Real.pi_gt_three
    linarith
  have hy0 : 0 < x * (1 + 1 / 100000) := by positivity
  have hy1 : x * (1 + 1 / 100000) ≤ 1 := by nlinarith
  rw [Real.arcsin_le_iff_le_sin ⟨by linarith, by linarith⟩
    ⟨by linarith, by linarith⟩]
  have hs := Real.sin_gt_sub_cube hy0 hy1
  have hx2 : x ^ 2 ≤ 0.000004 := by nlinarith
  have hfac : (0 : ℝ) ≤ 1 / 100000 - (1 + 1 / 100000) ^ 3 * x ^ 2 / 4 := by
    nlinarith
  nlinarith [mul_nonneg h0.le hfac]

/-- A quadratic-with-cubic-correction upper bound on `cos`, sharp enough for
latitude angles around 0.33 rad. -/
lemma cos_upper_bound (x : ℝ) (h0 : 0 < x) (h2 : x ≤ 2) :
    Real.cos x < 1 - 2 * (x / 2 - (x / 2) ^ 3 / 4) ^ 2 := by
  have hhalf : Real.sin (x / 2) ^ 2 = 1 / 2 - Real.cos x / 2 := by
    have h := Real.sin_sq_eq_half_sub (x / 2)
    rwa [show 2 * (x / 2) = x by ring] at h
  have hs := Real.sin_gt_sub_cube (by linarith : (0 : ℝ) < x / 2)
    (by linarith : x / 2 ≤ 1)
  have hnn : 0 ≤ x / 2 - (x / 2) ^ 3 / 4 := by nlinarith [sq_nonneg (x / 2)]
  have hsq : (x / 2 - (x / 2) ^ 3 / 4) ^ 2 < Real.sin (x / 2) ^ 2 :=
    pow_lt_pow_left₀ hs hnn (by norm_num)
  linarith

set_option maxHeartbeats 2000000 in
/-- Interval bounds for the Haversine distance of the spec's example: driver
at (19.0760, 72.8777), customer at (19.2183, 72.9781).  The distance lies in
(18.9, 19.1) km — not near the claimed 17.7 km. -/
lemma haversine_mumbai_bounds :
    18.9 < haversine_distance 19.0760 72.8777 19.2183 72.9781 ∧
      haversine_distance 19.0760 72.8777 19.2183 72.9781 < 19.1 := by
  have hpl : (3.141592 : ℝ) < Real.pi := Real.pi_gt_d6
  have hpu : Real.pi < 3.141593 := Real.pi_lt_d6
  show 18.9 < 2 * Real.arcsin (Real.sqrt
      (Real.sin ((19.2183 * Real.pi / 180 - 19.0760 * Real.pi / 180) / 2) ^ 2 +
        Real.cos (19.0760 * Real.pi / 180) * Real.cos (19.2183 * Real.pi / 180)
          * Real.sin ((72.9781 * Real.pi / 180 - 72.8777 * Real.pi / 180) / 2)
            ^ 2)) * 6371 ∧
    2 * Real.arcsin (Real.sqrt
      (Real.sin ((19.2183 * Real.pi / 180 - 19.0760 * Real.pi / 180) / 2) ^ 2 +
        Real.cos (19.0760 * Real.pi / 180) * Real.cos (19.2183 * Real.pi / 180)
          * Real.sin ((72.9781 * Real.pi / 180 - 72.8777 * Real.pi / 180) / 2)
            ^ 2)) * 6371 < 19.1
  set t1 : ℝ := (19.2183 * Real.pi / 180 - 19.0760 * Real.pi / 180) / 2
    with hdt1
  set t2 : ℝ := (72.9781 * Real.pi / 180 - 72.8777 * Real.pi / 180) / 2
    with hdt2
  set f1 : ℝ := 19.0760 * Real.pi / 180 with hdf1
  set f2 : ℝ := 19.2183 * Real.pi / 180 with hdf2
  -- radian interval bounds from the π bounds
  have ht1l : (0.0012418 : ℝ) < t1 := by rw [hdt1]; linarith
  have ht1u : t1 < 0.0012419 := by rw [hdt1]; linarith
  have ht2l : (0.00087615 : ℝ) < t2 := by rw [hdt2]; linarith
  have ht2u : t2 < 0.00087616 := by rw [hdt2]; linarith
  have hf1l : (0.332938 : ℝ) < f1 := by rw [hdf1]; linarith
  have hf1u : f1 < 0.332940 := by rw [hdf1]; linarith
  have hf2l : (0.335422 : ℝ) < f2 := by rw [hdf2]; linarith
  have hf2u : f2 < 0.335423 := by rw [hdf2]; linarith
  -- sine bounds
  have hs1c : t1 ^ 3 < 0.0012419 ^ 3 :=
    pow_lt_pow_left₀ ht1u (by linarith) (by norm_num)
  have hs1l : (0.0012417 : ℝ) < Real.sin t1 := by
    have h := Real.sin_gt_sub_cube (by linarith : (0 : ℝ) < t1)
      (by linarith : t1 ≤ 1)
    nlinarith [hs1c]
  have hs1u : Real.sin t1 < 0.0012419 := (Real.sin_lt (by linarith)).trans ht1u
  have hs2c : t2 ^ 3 < 0.00087616 ^ 3 :=
    pow_lt_pow_left₀ ht2u (by linarith) (by norm_num)
  have hs2l : (0.0008761 : ℝ) < Real.sin t2 := by
    have h := Real.sin_gt_sub_cube (by linarith : (0 : ℝ) < t2)
      (by linarith : t2 ≤ 1)
    nlinarith [hs2c]
  have hs2u : Real.sin t2 < 0.0008762 := by
    have h := Real.sin_lt (by linarith : (0 : ℝ) < t2)
    linarith
  -- cosine bounds
  have hc1l : (0.9445 : ℝ) < Real.cos f1 := by
    have h := Real.one_sub_sq_div_two_lt_cos (show f1 ≠ 0 by positivity)
    have hsq : f1 ^ 2 < 0.332940 ^ 2 :=
      pow_lt_pow_left₀ hf1u (by linarith) (by norm_num)
    nlinarith
  have hc1u : Real.cos f1 < 0.9454 := by
    have h := cos_upper_bound f1 (by linarith) (by linarith)
    have hcc : (f1 / 2) ^ 3 < (0.332940 / 2) ^ 3 :=
      pow_lt_pow_left₀ (by linarith) (by linarith) (by norm_num)
    have hu : (0.165315 : ℝ) < f1 / 2 - (f1 / 2) ^ 3 / 4 := by nlinarith
    have husq : (0.165315 : ℝ) ^ 2 < (f1 / 2 - (f1 / 2) ^ 3 / 4) ^ 2 :=
      pow_lt_pow_left₀ hu (by norm_num) (by norm_num)
    nlinarith
  have hc2l : (0.9437 : ℝ) < Real.cos f2 := by
    have h := Real.one_sub_sq_div_two_lt_cos (show f2 ≠ 0 by positivity)
    have hsq : f2 ^ 2 < 0.335423 ^ 2 :=
      pow_lt_pow_left₀ hf2u (by linarith) (by norm_num)
    nlinarith
  have hc2u : Real.cos f2 < 0.9446 := by
    have h := cos_upper_bound f2 (by linarith) (by linarith)
    have hcc : (f2 / 2) ^ 3 < (0.335423 / 2) ^ 3 :=
      pow_lt_pow_left₀ (by linarith) (by linarith) (by norm_num)
    have hu : (0.166531 : ℝ) < f2 / 2 - (f2 / 2) ^ 3 / 4 := by nlinarith
    have husq : (0.166531 : ℝ) ^ 2 < (f2 / 2 - (f2 / 2) ^ 3 / 4) ^ 2 :=
      pow_lt_pow_left₀ hu (by norm_num) (by norm_num)
    nlinarith
  -- bounds on the Haversine kernel a
  have hccl : (0.8913 : ℝ) < Real.cos f1 * Real.cos f2 := by nlinarith
  have hccu : Real.cos f1 * Real.cos f2 < 0.8931 := by nlinarith
  have hs1sql : (0.0000015418 : ℝ) < Real.sin t1 ^ 2 := by nlinarith
  have hs1squ : Real.sin t1 ^ 2 < 0.0000015424 := by nlinarith
  have hs2sql : (0.00000076755 : ℝ) < Real.sin t2 ^ 2 := by nlinarith
  have hs2squ : Real.sin t2 ^ 2 < 0.00000076773 := by nlinarith
  have hterml : (0.0000006841 : ℝ) <
      Real.cos f1 * Real.cos f2 * Real.sin t2 ^ 2 := by nlinarith
  have htermu : Real.cos f1 * Real.cos f2 * Real.sin t2 ^ 2 <
      0.0000006857 := by nlinarith
  have hal : (0.0000022259 : ℝ) <
      Real.sin t1 ^ 2 + Real.cos f1 * Real.cos f2 * Real.sin t2 ^ 2 := by
    linarith
  have hau : Real.sin t1 ^ 2 + Real.cos f1 * Real.cos f2 * Real.sin t2 ^ 2 <
      0.0000022281 := by linarith
  -- square root bounds
  have hsqrtl : (0.00149 : ℝ) ≤ Real.sqrt
      (Real.sin t1 ^ 2 + Real.cos f1 * Real.cos f2 * Real.sin t2 ^ 2) :=
    Real.le_sqrt_of_sq_le (by nlinarith)
  have hsqrtu : Real.sqrt
      (Real.sin t1 ^ 2 + Real.cos f1 * Real.cos f2 * Real.sin t2 ^ 2) ≤
      0.001493 :=
    (Real.sqrt_le_left (by norm_num)).mpr (by nlinarith)
  -- arcsin bounds
  have harcl : (0.00149 : ℝ) ≤ Real.arcsin (Real.sqrt
      (Real.sin t1 ^ 2 + Real.cos f1 * Real.cos f2 * Real.sin t2 ^ 2)) :=
    le_trans hsqrtl (le_arcsin_of_unit _ (Real.sqrt_nonneg _)
      (by linarith))
  have harcu : Real.arcsin (Real.sqrt
      (Real.sin t1 ^ 2 + Real.cos f1 * Real.cos f2 * Real.sin t2 ^ 2)) ≤
      0.001493 * (1 + 1 / 100000) := by
    have h := arcsin_le_small (Real.sqrt
        (Real.sin t1 ^ 2 + Real.cos f1 * Real.cos f2 * Real.sin t2 ^ 2))
      (by linarith) (by linarith)
    nlinarith [Real.sqrt_nonneg
      (Real.sin t1 ^ 2 + Real.cos f1 * Real.cos f2 * Real.sin t2 ^ 2)]
  constructor
  · nlinarith [harcl]
  · nlinarith [harcu]

/-- The ETA computed by the fallback for the (19.0760, 72.8777) →
(19.2183, 72.9781) trip with no live speed is 28 minutes. -/
lemma mumbai_eta_28 :
    calculate_eta (haversine_distance 19.0760 72.8777 19.2183 72.9781)
      (none : Option ℝ) 40 = 28 := by
  obtain ⟨hl, hu⟩ := haversine_mumbai_bounds
  have hnn : (0 : ℝ) ≤
      haversine_distance 19.0760 72.8777 19.2183 72.9781 /
        speed_to_use (none : Option ℝ) 40 * 60 := by
    have := haversine_distance_nonneg 19.0760 72.8777 19.2183 72.9781
    have := speed_to_use_pos (none : Option ℝ)
    positivity
  simp only [calculate_eta, pyInt, if_pos hnn]
  have hspeed : speed_to_use (none : Option ℝ) (40 : ℝ) = 40 := rfl
  rw [hspeed, Int.floor_eq_iff]
  constructor
  · push_cast
    linarith
  · push_cast
    linarith

/-- C9 amended: the fallback of `get_distance_and_eta` returns the Haversine
distance with `is_road_distance = false` and
ETA `⌊distance / speed × 60⌋` where the speed is the live one only when it
exceeds the 5 km/h floor (and is not falsy) and 40 km/h otherwise; on the
spec's example trip — driver (19.0760, 72.8777), customer (19.2183, 72.9781),
no provider, no live speed — the distance is ≈ 19.0 km (in (18.9, 19.1)) and
the ETA is 28 minutes, not the claimed ≈ 17.7 km / ≈ 26 minutes. -/
theorem get_distance_and_eta_fallback :
    (∀ (dla dlo cla clo : ℝ) (sp : Option ℝ),
        get_distance_and_eta none dla dlo cla clo sp true =
          (haversine_distance dla dlo cla clo,
            ⌊haversine_distance dla dlo cla clo /
              speed_to_use sp 40 * 60⌋, false)) ∧
      (∀ s : ℝ, 5 < s → speed_to_use (some s) (40 : ℝ) = s) ∧
      (∀ s : ℝ, s ≤ 5 → speed_to_use (some s) (40 : ℝ) = 40) ∧
      (18.9 < (get_distance_and_eta none 19.0760 72.8777 19.2183 72.9781
          none true).1 ∧
        (get_distance_and_eta none 19.0760 72.8777 19.2183 72.9781
          none true).1 < 19.1 ∧
        (get_distance_and_eta none 19.0760 72.8777 19.2183 72.9781
          none true).2.1 = 28 ∧
        (get_distance_and_eta none 19.0760 72.8777 19.2183 72.9781
          none true).2.2 = false) := by
  refine ⟨?_, ?_, ?_, ?_, ?_, ?_, rfl⟩
  · intro dla dlo cla clo sp
    have hnn : (0 : ℝ) ≤ haversine_distance dla dlo cla clo /
        speed_to_use sp 40 * 60 := by
      have := haversine_distance_nonneg dla dlo cla clo
      have := speed_to_use_pos sp
      positivity
    show (haversine_distance dla dlo cla clo,
        calculate_eta (haversine_distance dla dlo cla clo) sp 40, false) = _
    simp only [calculate_eta, pyInt, if_pos hnn]
  · intro s hs
    have h : s ≠ 0 ∧ 5 < s := ⟨by linarith, hs⟩
    simp only [speed_to_use, if_pos h]
  · intro s hs
    have h : ¬ (s ≠ 0 ∧ 5 < s) := fun hc => absurd hc.2 (by linarith)
    simp only [speed_to_use, if_neg h]
  · exact (haversine_mumbai_bounds).1
  · exact (haversine_mumbai_bounds).2
  · exact mumbai_eta_28

/-- Witness for `get_distance_and_eta_fallback`: the fallback triple at a
concrete trip with a falsy live speed, a live speed of 50 km/h (used) and a
live speed of 3 km/h (below the noise floor, replaced by 40). -/
theorem get_distance_and_eta_fallback_witness :
    get_distance_and_eta none (19 : ℝ) 72 20 73 (some (0 : ℝ)) true =
        (haversine_distance 19 72 20 73,
          ⌊haversine_distance 19 72 20 73 /
            speed_to_use (some (0 : ℝ)) 40 * 60⌋, false) ∧
      speed_to_use (some (50 : ℝ)) (40 : ℝ) = 50 ∧
      speed_to_use (some (3 : ℝ)) (40 : ℝ) = 40 :=
  ⟨get_distance_and_eta_fallback.1 19 72 20 73 (some 0),
    get_distance_and_eta_fallback.2.1 50 (by norm_num),
    get_distance_and_eta_fallback.2.2.1 3 (by norm_num)⟩

/-- C9 counterexample: at the claim's own example input the fallback returns
a distance more than 1 km away from the claimed ≈ 17.7 km (it is ≈ 19.0 km)
and an ETA of 28 minutes, not ≈ 26. -/
theorem mumbai_fallback_figures_counterexample :
    1 < |(get_distance_and_eta none 19.0760 72.8777 19.2183 72.9781
        none true).1 - 17.7| ∧
      (get_distance_and_eta none 19.0760 72.8777 19.2183 72.9781
        none true).2.1 ≠ 26 ∧
      (get_distance_and_eta none 19.0760 72.8777 19.2183 72.9781
        none true).2.2 = false := by
  obtain ⟨hl, hu⟩ := haversine_mumbai_bounds
  refine ⟨?_, ?_, rfl⟩
  · show 1 < |haversine_distance 19.0760 72.8777 19.2183 72.9781 - 17.7|
    rw [abs_of_pos (by linarith)]
    linarith
  · show calculate_eta (haversine_distance 19.0760 72.8777 19.2183 72.9781)
      (none : Option ℝ) 40 ≠ 26
    rw [mumbai_eta_28]
    norm_num

end C9Claims
